import Mathlib

/-!
Formal model of the nbaPropsPrediction point-in-time feature pipeline and
probability-translation layer.

The development shallowly embeds, over exact rationals:

* the pandas rolling/EWM/std primitives used by all three feature call sites
  (`x.shift(1).rolling(window=w, min_periods=m).mean()/.std()` and
  `x.shift(1).ewm(span=5, adjust=False).mean()`), as functions of the masked
  per-player series;
* the per-player `groupby("player_name").transform(...)` alignment;
* the training-data export pipeline (src/notebooks/feature_engineering.py),
  the live single-player inference pipeline
  (src/backend/nba_betting/views.py, `_build_latest_features`), and the
  service-layer pipeline (src/backend/nba_betting/services/features.py:
  `_add_rolling_features`, `_get_opponent_pts_allowed`, `get_model_inputs`);
* the probability translator
  (src/backend/nba_betting/services/probability.py, `calculate_probability`)
  and the response assembly of `ManualPredictionView.post`.

Numeric library routines that are external to the repository (numpy sqrt,
scipy `norm.cdf`, `poisson.cdf`) are taken as function parameters of the
embedding; Python floats are modelled as rationals.
-/

namespace PyStr

/-- Models Python `str.lower()` for the ASCII team/stat codes used by the
repository (character-wise lowering). -/
def pyLower (s : String) : String := ⟨s.data.map Char.toLower⟩

/-- Models Python `str.upper()` (character-wise uppering). -/
def pyUpper (s : String) : String := ⟨s.data.map Char.toUpper⟩

/-- Whitespace test used by Python `str.strip()`. -/
def isSpaceChar (c : Char) : Bool := c = ' ' ∨ c = '\t' ∨ c = '\n' ∨ c = '\r'

/-- Models Python `str.strip()`: removes leading and trailing whitespace. -/
def pyStrip (s : String) : String :=
  ⟨((s.data.dropWhile isSpaceChar).reverse.dropWhile isSpaceChar).reverse⟩

end PyStr

namespace Pandas

/-- The non-missing values of a float series (NaN is modelled as `none`). -/
def valids (s : List (Option ℚ)) : List ℚ := s.filterMap id

/-- The valid inputs seen by `x.shift(1).rolling(window=w)` at position `j`:
the shift makes the window at `j` range over the original positions
`j - w, ..., j - 1`, i.e. over the last `w` entries of `s.take j`. -/
def trailing (w : ℕ) (s : List (Option ℚ)) (j : ℕ) : List ℚ :=
  valids ((s.take j).drop (j - w))

/-- Models `x.shift(1).rolling(window=w, min_periods=m).mean()` at position
`j`: the simple mean of the valid values in the trailing window, missing
when fewer than `m` valid observations are available. -/
def shiftRollMean (w m : ℕ) (s : List (Option ℚ)) (j : ℕ) : Option ℚ :=
  let v := trailing w s j
  if m ≤ v.length then some (v.sum / (v.length : ℚ)) else none

/-- Sample mean of a list of rationals. -/
def sampleMean (v : List ℚ) : ℚ := v.sum / (v.length : ℚ)

/-- Sample variance with one delta degree of freedom, as used by pandas
`.std()` (which returns its square root). -/
def sampleVar (v : List ℚ) : ℚ :=
  (v.map (fun x => (x - sampleMean v) ^ 2)).sum / ((v.length : ℚ) - 1)

/-- Models `x.shift(1).rolling(window=w, min_periods=m).std()` at position
`j`.  pandas computes the square root of the 1-ddof sample variance; the
numerical square-root routine is the parameter `sq`. -/
def shiftRollStd (sq : ℚ → ℚ) (w m : ℕ) (s : List (Option ℚ)) (j : ℕ) :
    Option ℚ :=
  let v := trailing w s j
  if m ≤ v.length then some (sq (sampleVar v)) else none

/-- One step of `ewm(adjust=False, ignore_na=False)`: the state is the
weighted numerator/denominator pair, `none` before the first valid value.
A missing value decays both components, leaving the mean unchanged. -/
def ewmStep (a : ℚ) (acc : Option (ℚ × ℚ)) (x : Option ℚ) : Option (ℚ × ℚ) :=
  match x, acc with
  | none, none => none
  | none, some (num, den) => some ((1 - a) * num, (1 - a) * den)
  | some v, none => some (v, 1)
  | some v, some (num, den) => some ((1 - a) * num + a * v, (1 - a) * den + a)

/-- Models `x.shift(1).ewm(span=s, adjust=False).mean()` at position `j`
with smoothing factor `a = 2/(s+1)`: the shift makes position `j` see the
original positions `0, ..., j-1`, i.e. `s.take j`. -/
def shiftEwmMean (a : ℚ) (s : List (Option ℚ)) (j : ℕ) : Option ℚ :=
  ((s.take j).foldl (ewmStep a) none).map (fun p => p.1 / p.2)

/-- Insert into a sorted list, keeping earlier elements first on ties. -/
def insertBy {α : Type} (le : α → α → Bool) (a : α) : List α → List α
  | [] => [a]
  | b :: l => if le a b then a :: b :: l else b :: insertBy le a l

/-- Comparison sort modelling pandas `sort_values` (stable on ties). -/
def sortBy {α : Type} (le : α → α → Bool) : List α → List α
  | [] => []
  | a :: l => insertBy le a (sortBy le l)

end Pandas

/-- One full-game stat line of one player, as loaded into the feature
frames by `_load_player_history` / `_build_latest_features` / the export
CSV: identity and context columns plus the five masked stats. -/
structure StatRow where
  date : ℤ
  game_id : ℕ
  player_name : String
  player_team : Option String
  home_team : Option String
  away_team : Option String
  pts : ℚ
  reb : ℚ
  ast : ℚ
  min : ℚ
  fg_pct : ℚ
deriving DecidableEq, Inhabited, Repr

namespace Pandas

/-- Sort key of `sort_values(["player_name", "date"])`. -/
def nameDateLe (a b : StatRow) : Bool :=
  match compare a.player_name b.player_name with
  | .lt => true
  | .gt => false
  | .eq => a.date ≤ b.date

/-- Garbage-time masking of one column value: rows with fewer than 10
minutes are set to NaN in the calculation copy
(`calc_df.loc[calc_df["min"] < 10, cols] = np.nan`). -/
def maskFn (f : StatRow → ℚ) (r : StatRow) : Option ℚ :=
  if r.min < 10 then none else some (f r)

/-- The masked column series of a frame. -/
def maskedSeries (f : StatRow → ℚ) (tl : List StatRow) : List (Option ℚ) :=
  tl.map (maskFn f)

/-- Group key of row `i` for `groupby("player_name")`. -/
def nameOf (tl : List StatRow) (i : ℕ) : String :=
  (tl.getD i default).player_name

/-- The rows of row `i`'s player group, in frame order (pandas groupby
preserves the within-group order). -/
def groupOf (tl : List StatRow) (i : ℕ) : List StatRow :=
  tl.filter (fun r => r.player_name == nameOf tl i)

/-- The position of row `i` inside its own group. -/
def rankOf (tl : List StatRow) (i : ℕ) : ℕ :=
  ((tl.take i).filter (fun r => r.player_name == nameOf tl i)).length

/-- Models `calc_df.groupby("player_name")[col].transform(lam)` evaluated at
row `i`: the window function `g` is applied to the masked column series of
row `i`'s group at row `i`'s within-group position, and the result is
aligned back to row `i`. -/
def groupCol (f : StatRow → ℚ) (g : List (Option ℚ) → ℕ → Option ℚ)
    (tl : List StatRow) (i : ℕ) : Option ℚ :=
  g (maskedSeries f (groupOf tl i)) (rankOf tl i)

/-- Context column `is_home`: 1 when the player's team is the game's home
team (Python compares the two object columns, with None equal to None). -/
def isHomeRow (r : StatRow) : ℚ :=
  if r.player_team == r.home_team then 1 else 0

/-- Context column `opponent`:
`np.where(is_home == 1, away_team, home_team)`. -/
def opponentRow (r : StatRow) : Option String :=
  if isHomeRow r = 1 then r.away_team else r.home_team

/-- Context column `days_rest`:
`groupby("player_name")["date"].diff().dt.days`, filled with 3 when the
player has no preceding row. -/
def daysRestCol (tl : List StatRow) (i : ℕ) : ℚ :=
  match ((tl.take i).filter (fun r => r.player_name == nameOf tl i)).getLast? with
  | none => 3
  | some p => (((tl.getD i default).date - p.date : ℤ) : ℚ)

end Pandas

/-- The fixed 17-column feature schema shared by the export pipeline and the
inference pipelines; the rolling columns and the merged opponent-defense
column may be missing (NaN) for early rows. -/
structure FeatRow where
  is_home : ℚ
  days_rest : ℚ
  opp_pts_allowed_L10 : Option ℚ
  pts_L5 : Option ℚ
  pts_L10 : Option ℚ
  pts_ema_L5 : Option ℚ
  pts_std_L10 : Option ℚ
  reb_L5 : Option ℚ
  reb_L10 : Option ℚ
  reb_ema_L5 : Option ℚ
  ast_L5 : Option ℚ
  ast_L10 : Option ℚ
  ast_ema_L5 : Option ℚ
  min_L5 : Option ℚ
  min_L10 : Option ℚ
  fg_pct_L5 : Option ℚ
  fg_pct_L10 : Option ℚ
deriving DecidableEq

/-- Key of the per-game opponent-defense aggregation. -/
structure DefKey where
  game_id : ℕ
  date : ℤ
  opponent : String
deriving DecidableEq, Inhabited, Repr

namespace Pandas

/-- Ascending group-key order of
`groupby(["game_id", "date", "opponent"])` (pandas sorts group keys). -/
def defKeyLe (a b : DefKey) : Bool :=
  match compare a.game_id b.game_id with
  | .lt => true
  | .gt => false
  | .eq =>
    match compare a.date b.date with
    | .lt => true
    | .gt => false
    | .eq => (compare a.opponent b.opponent).isLE

/-- Sort key of `sort_values(["opponent", "date"])` on the defense table. -/
def oppDateLe (a b : DefKey) : Bool :=
  match compare a.opponent b.opponent with
  | .lt => true
  | .gt => false
  | .eq => a.date ≤ b.date

end Pandas

namespace Features

open Pandas

/-!
Embedding of `_add_rolling_features` of
src/backend/nba_betting/services/features.py (lines 114-137): the five
stats are masked for garbage time, then each rolling column is a
`groupby("player_name").transform` of a shift-by-one window statistic.
-/

/-- Column `pts_L5` of `_add_rolling_features`. -/
def pts_L5 (tl : List StatRow) (i : ℕ) : Option ℚ :=
  groupCol (fun r => r.pts) (shiftRollMean 5 1) tl i

/-- Column `pts_L10` of `_add_rolling_features`. -/
def pts_L10 (tl : List StatRow) (i : ℕ) : Option ℚ :=
  groupCol (fun r => r.pts) (shiftRollMean 10 1) tl i

/-- Column `reb_L5` of `_add_rolling_features`. -/
def reb_L5 (tl : List StatRow) (i : ℕ) : Option ℚ :=
  groupCol (fun r => r.reb) (shiftRollMean 5 1) tl i

/-- Column `reb_L10` of `_add_rolling_features`. -/
def reb_L10 (tl : List StatRow) (i : ℕ) : Option ℚ :=
  groupCol (fun r => r.reb) (shiftRollMean 10 1) tl i

/-- Column `ast_L5` of `_add_rolling_features`. -/
def ast_L5 (tl : List StatRow) (i : ℕ) : Option ℚ :=
  groupCol (fun r => r.ast) (shiftRollMean 5 1) tl i

/-- Column `ast_L10` of `_add_rolling_features`. -/
def ast_L10 (tl : List StatRow) (i : ℕ) : Option ℚ :=
  groupCol (fun r => r.ast) (shiftRollMean 10 1) tl i

/-- Column `min_L5` of `_add_rolling_features`. -/
def min_L5 (tl : List StatRow) (i : ℕ) : Option ℚ :=
  groupCol (fun r => r.min) (shiftRollMean 5 1) tl i

/-- Column `min_L10` of `_add_rolling_features`. -/
def min_L10 (tl : List StatRow) (i : ℕ) : Option ℚ :=
  groupCol (fun r => r.min) (shiftRollMean 10 1) tl i

/-- Column `fg_pct_L5` of `_add_rolling_features`. -/
def fg_pct_L5 (tl : List StatRow) (i : ℕ) : Option ℚ :=
  groupCol (fun r => r.fg_pct) (shiftRollMean 5 1) tl i

/-- Column `fg_pct_L10` of `_add_rolling_features`. -/
def fg_pct_L10 (tl : List StatRow) (i : ℕ) : Option ℚ :=
  groupCol (fun r => r.fg_pct) (shiftRollMean 10 1) tl i

/-- Column `pts_ema_L5` (`ewm(span=5, adjust=False)`, so `a = 1/3`). -/
def pts_ema_L5 (tl : List StatRow) (i : ℕ) : Option ℚ :=
  groupCol (fun r => r.pts) (shiftEwmMean (1/3)) tl i

/-- Column `reb_ema_L5` of `_add_rolling_features`. -/
def reb_ema_L5 (tl : List StatRow) (i : ℕ) : Option ℚ :=
  groupCol (fun r => r.reb) (shiftEwmMean (1/3)) tl i

/-- Column `ast_ema_L5` of `_add_rolling_features`. -/
def ast_ema_L5 (tl : List StatRow) (i : ℕ) : Option ℚ :=
  groupCol (fun r => r.ast) (shiftEwmMean (1/3)) tl i

/-- Column `pts_std_L10` (`rolling(window=10, min_periods=5).std()`); the
numerical square root is the parameter `sq`. -/
def pts_std_L10 (sq : ℚ → ℚ) (tl : List StatRow) (i : ℕ) : Option ℚ :=
  groupCol (fun r => r.pts) (shiftRollStd sq 10 5) tl i

end Features

/-- One raw stat row of the opponent-defense query in
`_get_opponent_pts_allowed`: a period-0 stat line of some player in a game
involving the requested opponent (`team` is that player's own team, `none`
when the stored row has no team). -/
structure OppRow where
  game_id : ℕ
  date : ℤ
  team : Option String
  pts : ℚ
deriving DecidableEq, Inhabited, Repr

/-- One entry of the `rows` list built by the loop of
`_get_opponent_pts_allowed`. -/
structure QRow where
  game_id : ℕ
  date : ℤ
  opponent : String
  pts : ℚ
deriving DecidableEq, Inhabited, Repr

namespace Features

open Pandas PyStr

/-- The loop of `_get_opponent_pts_allowed` (lines 153-167): rows without a
team are skipped, rows of the opponent's own players are skipped, and the
rest are recorded under the uppercased opponent code. -/
def oppQualifying (opponent : String) (oppRows : List OppRow) : List QRow :=
  oppRows.filterMap (fun r =>
    match r.team with
    | none => none
    | some t =>
      if pyUpper t = pyUpper opponent then none
      else some ⟨r.game_id, r.date, pyUpper opponent, r.pts⟩)

/-- Ascending key order of the single-opponent defense aggregation
`groupby(["opponent", "date", "game_id"])` (the opponent key is constant,
so keys sort by date then game id). -/
def qKeyLe (a b : ℤ × ℕ) : Bool :=
  match compare a.1 b.1 with
  | .lt => true
  | .gt => false
  | .eq => a.2 ≤ b.2

/-- Embedding of `_get_opponent_pts_allowed` (features.py lines 140-196):
given the caller's opponent code, the stat rows of games involving that
opponent, and the as-of date, returns the trailing-10 points-allowed mean
at the opponent's most recent game strictly before the as-of date, or
`none` when there is no qualifying history (the caller treats `none` as an
insufficient-data failure).  The final `sort_values(["opponent", "date"])`
is the identity here because the opponent key is constant and the grouped
table is already date-sorted. -/
def oppPtsAllowedSome (opp : String) (oppRows : List OppRow)
    (as_of_date : ℤ) : Option ℚ :=
  if opp = "" then none
  else
    let rows := oppQualifying opp oppRows
    if rows.isEmpty then none
    else
      let rows := rows.filter (fun r => r.date < as_of_date)
      if rows.isEmpty then none
      else
        let keys := Pandas.sortBy qKeyLe ((rows.map (fun r => (r.date, r.game_id))).dedup)
        let defense : List ℚ := keys.map (fun k =>
          ((rows.filter (fun r => r.date == k.1 && r.game_id == k.2)).map
            (fun r => r.pts)).sum)
        shiftRollMean 10 1 (defense.map some) (defense.length - 1)

/-- Dispatch on Python's falsy-opponent check (`if not opponent` also
covers a missing opponent argument). -/
def oppPtsAllowed : Option String → List OppRow → ℤ → Option ℚ
  | none, _, _ => none
  | some opp, oppRows, as_of_date => oppPtsAllowedSome opp oppRows as_of_date

/-- The per-row completeness check behind `df.dropna()` in
`get_model_inputs`: the only columns of the features.py history frame that
can be NaN are the 14 rolling columns. -/
def completeAt (sq : ℚ → ℚ) (tl : List StatRow) (i : ℕ) : Bool :=
  (pts_L5 tl i).isSome && (pts_L10 tl i).isSome &&
  (reb_L5 tl i).isSome && (reb_L10 tl i).isSome &&
  (ast_L5 tl i).isSome && (ast_L10 tl i).isSome &&
  (min_L5 tl i).isSome && (min_L10 tl i).isSome &&
  (fg_pct_L5 tl i).isSome && (fg_pct_L10 tl i).isSome &&
  (pts_ema_L5 tl i).isSome && (reb_ema_L5 tl i).isSome &&
  (ast_ema_L5 tl i).isSome && (pts_std_L10 sq tl i).isSome

/-- The row indices (of the sorted history frame) surviving
`history_df[history_df["min"] > 0]` followed by `dropna()`. -/
def survivors (sq : ℚ → ℚ) (tl : List StatRow) : List ℕ :=
  (List.range tl.length).filter
    (fun i => decide (0 < (tl.getD i default).min) && completeAt sq tl i)

/-- The `feature_columns` list of `get_model_inputs` (features.py lines
30-48): the fixed 17-column contract of the classifier. -/
def feature_columns : List String :=
  ["is_home", "days_rest", "opp_pts_allowed_L10",
   "pts_L5", "pts_L10", "pts_ema_L5", "pts_std_L10",
   "reb_L5", "reb_L10", "reb_ema_L5",
   "ast_L5", "ast_L10", "ast_ema_L5",
   "min_L5", "min_L10", "fg_pct_L5", "fg_pct_L10"]

/-- The columns actually present in the features.py history frame when
`latest[feature_columns]` runs: the 14 loaded/context columns of
`_load_player_history` plus the 14 rolling columns of
`_add_rolling_features`.  No `opp_pts_allowed_L10` column is ever added on
this path (the defense value only exists as the scalar `opp_def`). -/
def history_columns : List String :=
  ["date", "game_id", "player_name", "player_team", "home_team", "away_team",
   "pts", "reb", "ast", "min", "fg_pct", "is_home", "opponent", "days_rest",
   "pts_L5", "pts_L10", "reb_L5", "reb_L10", "ast_L5", "ast_L10",
   "min_L5", "min_L10", "fg_pct_L5", "fg_pct_L10",
   "pts_ema_L5", "reb_ema_L5", "ast_ema_L5", "pts_std_L10"]

/-- The inference feature vector (one fully populated 17-column row). -/
structure FeatureVec where
  is_home : ℚ
  days_rest : ℚ
  opp_pts_allowed_L10 : ℚ
  pts_L5 : ℚ
  pts_L10 : ℚ
  pts_ema_L5 : ℚ
  pts_std_L10 : ℚ
  reb_L5 : ℚ
  reb_L10 : ℚ
  reb_ema_L5 : ℚ
  ast_L5 : ℚ
  ast_L10 : ℚ
  ast_ema_L5 : ℚ
  min_L5 : ℚ
  min_L10 : ℚ
  fg_pct_L5 : ℚ
  fg_pct_L10 : ℚ
deriving DecidableEq, Inhabited, Repr

/-- Embedding of `get_model_inputs` (features.py lines 10-55).  Player
resolution and database loading are external; `history` is the player's
loaded stat-line list and `oppRows` the opponent-defense query result.
Pandas raises a KeyError on `latest[feature_columns]` when any requested
label is absent from the row's index, which is modelled by the
`feature_columns ⊆ history_columns` guard; on the (counterfactual) success
branch the selected row is materialised and the three scenario overrides
are applied exactly as in lines 51-53. -/
def get_model_inputs (sq : ℚ → ℚ) (history : List StatRow)
    (opponent : Option String) (oppRows : List OppRow)
    (is_home : Bool) (days_rest : ℚ) : Except String FeatureVec :=
  if history.isEmpty then .error "No historical stats found."
  else
    let df := Pandas.sortBy nameDateLe history
    match (survivors sq df).getLast? with
    | none => .error "Not enough data to build features."
    | some i =>
      match oppPtsAllowed opponent oppRows (df.getD i default).date with
      | none => .error "Not enough opponent history to build features."
      | some opp_def =>
        if feature_columns.all (fun c => history_columns.contains c) then
          .ok
            { is_home := if is_home then 1 else 0
              days_rest := days_rest
              opp_pts_allowed_L10 := opp_def
              pts_L5 := (pts_L5 df i).getD 0
              pts_L10 := (pts_L10 df i).getD 0
              pts_ema_L5 := (pts_ema_L5 df i).getD 0
              pts_std_L10 := (pts_std_L10 sq df i).getD 0
              reb_L5 := (reb_L5 df i).getD 0
              reb_L10 := (reb_L10 df i).getD 0
              reb_ema_L5 := (reb_ema_L5 df i).getD 0
              ast_L5 := (ast_L5 df i).getD 0
              ast_L10 := (ast_L10 df i).getD 0
              ast_ema_L5 := (ast_ema_L5 df i).getD 0
              min_L5 := (min_L5 df i).getD 0
              min_L10 := (min_L10 df i).getD 0
              fg_pct_L5 := (fg_pct_L5 df i).getD 0
              fg_pct_L10 := (fg_pct_L10 df i).getD 0 }
        else .error "KeyError: opp_pts_allowed_L10 not in index"

end Features

namespace FeatEng

open Pandas

/-!
Embedding of the training-data export pipeline of
src/notebooks/feature_engineering.py: `load_and_sort`,
`add_context_features`, `add_rolling_player_stats` and `add_opponent_stats`.
-/

/-- `load_and_sort`: `sort_values(["player_name", "date"])`. -/
def load_and_sort (df : List StatRow) : List StatRow :=
  Pandas.sortBy nameDateLe df

/-- Column `pts_L5` of `add_rolling_player_stats`. -/
def pts_L5 (tl : List StatRow) (i : ℕ) : Option ℚ :=
  groupCol (fun r => r.pts) (shiftRollMean 5 1) tl i

/-- Column `pts_L10` of `add_rolling_player_stats`. -/
def pts_L10 (tl : List StatRow) (i : ℕ) : Option ℚ :=
  groupCol (fun r => r.pts) (shiftRollMean 10 1) tl i

/-- Column `reb_L5` of `add_rolling_player_stats`. -/
def reb_L5 (tl : List StatRow) (i : ℕ) : Option ℚ :=
  groupCol (fun r => r.reb) (shiftRollMean 5 1) tl i

/-- Column `reb_L10` of `add_rolling_player_stats`. -/
def reb_L10 (tl : List StatRow) (i : ℕ) : Option ℚ :=
  groupCol (fun r => r.reb) (shiftRollMean 10 1) tl i

/-- Column `ast_L5` of `add_rolling_player_stats`. -/
def ast_L5 (tl : List StatRow) (i : ℕ) : Option ℚ :=
  groupCol (fun r => r.ast) (shiftRollMean 5 1) tl i

/-- Column `ast_L10` of `add_rolling_player_stats`. -/
def ast_L10 (tl : List StatRow) (i : ℕ) : Option ℚ :=
  groupCol (fun r => r.ast) (shiftRollMean 10 1) tl i

/-- Column `min_L5` of `add_rolling_player_stats`. -/
def min_L5 (tl : List StatRow) (i : ℕ) : Option ℚ :=
  groupCol (fun r => r.min) (shiftRollMean 5 1) tl i

/-- Column `min_L10` of `add_rolling_player_stats`. -/
def min_L10 (tl : List StatRow) (i : ℕ) : Option ℚ :=
  groupCol (fun r => r.min) (shiftRollMean 10 1) tl i

/-- Column `fg_pct_L5` of `add_rolling_player_stats`. -/
def fg_pct_L5 (tl : List StatRow) (i : ℕ) : Option ℚ :=
  groupCol (fun r => r.fg_pct) (shiftRollMean 5 1) tl i

/-- Column `fg_pct_L10` of `add_rolling_player_stats`. -/
def fg_pct_L10 (tl : List StatRow) (i : ℕ) : Option ℚ :=
  groupCol (fun r => r.fg_pct) (shiftRollMean 10 1) tl i

/-- Column `pts_ema_L5` of `add_rolling_player_stats` (span 5, `a = 1/3`). -/
def pts_ema_L5 (tl : List StatRow) (i : ℕ) : Option ℚ :=
  groupCol (fun r => r.pts) (shiftEwmMean (1/3)) tl i

/-- Column `reb_ema_L5` of `add_rolling_player_stats`. -/
def reb_ema_L5 (tl : List StatRow) (i : ℕ) : Option ℚ :=
  groupCol (fun r => r.reb) (shiftEwmMean (1/3)) tl i

/-- Column `ast_ema_L5` of `add_rolling_player_stats`. -/
def ast_ema_L5 (tl : List StatRow) (i : ℕ) : Option ℚ :=
  groupCol (fun r => r.ast) (shiftEwmMean (1/3)) tl i

/-- Column `pts_std_L10` of `add_rolling_player_stats`. -/
def pts_std_L10 (sq : ℚ → ℚ) (tl : List StatRow) (i : ℕ) : Option ℚ :=
  groupCol (fun r => r.pts) (shiftRollStd sq 10 5) tl i

/-- The rows entering the defense aggregation of `add_opponent_stats`:
`(game_id, date, opponent)` keys with the row's points.  Rows with a null
opponent are dropped by pandas groupby (null group keys are excluded). -/
def defInput (tl : List StatRow) : List (DefKey × ℚ) :=
  tl.filterMap (fun r =>
    match opponentRow r with
    | none => none
    | some o => some (⟨r.game_id, r.date, o⟩, r.pts))

/-- The defense table of `add_opponent_stats`:
`df.groupby(["game_id", "date", "opponent"])["pts"].sum().reset_index()`
(keys ascending) followed by `sort_values(["opponent", "date"])`. -/
def defenseTable (tl : List StatRow) : List (DefKey × ℚ) :=
  let input := defInput tl
  let keys := Pandas.sortBy defKeyLe (input.map (fun p => p.1)).dedup
  let grouped := keys.map (fun k =>
    (k, ((input.filter (fun p => p.1 == k)).map (fun p => p.2)).sum))
  Pandas.sortBy (fun a b => oppDateLe a.1 b.1) grouped

/-- Column `opp_pts_allowed_L10` of the defense table:
`groupby("opponent").transform(shift(1).rolling(10, min_periods=1).mean())`
evaluated at table position `j`. -/
def defColAt (tbl : List (DefKey × ℚ)) (j : ℕ) : Option ℚ :=
  let o := (tbl.getD j default).1.opponent
  shiftRollMean 10 1
    ((tbl.filter (fun p => p.1.opponent == o)).map (fun p => some p.2))
    (((tbl.take j).filter (fun p => p.1.opponent == o)).length)

/-- The defense table with its rolling column attached. -/
def defenseWithRoll (tl : List StatRow) : List (DefKey × Option ℚ) :=
  let tbl := defenseTable tl
  (List.range tbl.length).map (fun j => ((tbl.getD j default).1, defColAt tbl j))

/-- The left merge of `add_opponent_stats` on `["game_id", "opponent"]`,
evaluated at one frame row (the grouped keys are unique per game, so the
left join is a first-match lookup; an unmatched row gets NaN). -/
def mergeDefense (tbl : List (DefKey × Option ℚ)) (r : StatRow) : Option ℚ :=
  match opponentRow r with
  | none => none
  | some o =>
    match tbl.find? (fun p => p.1.game_id == r.game_id && p.1.opponent == o) with
    | none => none
    | some p => p.2

/-- The full 17-column feature row computed by the export pipeline
(`load_and_sort` then context, rolling and opponent features) at row `i`
of the sorted frame. -/
def featuresAt (sq : ℚ → ℚ) (df : List StatRow) (i : ℕ) : FeatRow :=
  let tl := load_and_sort df
  { is_home := isHomeRow (tl.getD i default)
    days_rest := daysRestCol tl i
    opp_pts_allowed_L10 := mergeDefense (defenseWithRoll tl) (tl.getD i default)
    pts_L5 := pts_L5 tl i
    pts_L10 := pts_L10 tl i
    pts_ema_L5 := pts_ema_L5 tl i
    pts_std_L10 := pts_std_L10 sq tl i
    reb_L5 := reb_L5 tl i
    reb_L10 := reb_L10 tl i
    reb_ema_L5 := reb_ema_L5 tl i
    ast_L5 := ast_L5 tl i
    ast_L10 := ast_L10 tl i
    ast_ema_L5 := ast_ema_L5 tl i
    min_L5 := min_L5 tl i
    min_L10 := min_L10 tl i
    fg_pct_L5 := fg_pct_L5 tl i
    fg_pct_L10 := fg_pct_L10 tl i }

end FeatEng

namespace Views

open Pandas

/-!
Embedding of the live single-player inference pipeline
`_build_latest_features` of src/backend/nba_betting/views.py (lines
119-221): the loaded history is sorted by `["player_name", "date"]`,
context, rolling and opponent-defense features are computed, and the most
recent surviving row is the inference anchor.  The feature computations are
line-for-line the same pandas operations as the export pipeline.
-/

/-- The `sort_values(["player_name", "date"])` step of
`_build_latest_features`. -/
def sortHistory (df : List StatRow) : List StatRow :=
  Pandas.sortBy nameDateLe df

/-- Column `pts_L5` of `_build_latest_features`. -/
def pts_L5 (tl : List StatRow) (i : ℕ) : Option ℚ :=
  groupCol (fun r => r.pts) (shiftRollMean 5 1) tl i

/-- Column `pts_L10` of `_build_latest_features`. -/
def pts_L10 (tl : List StatRow) (i : ℕ) : Option ℚ :=
  groupCol (fun r => r.pts) (shiftRollMean 10 1) tl i

/-- Column `reb_L5` of `_build_latest_features`. -/
def reb_L5 (tl : List StatRow) (i : ℕ) : Option ℚ :=
  groupCol (fun r => r.reb) (shiftRollMean 5 1) tl i

/-- Column `reb_L10` of `_build_latest_features`. -/
def reb_L10 (tl : List StatRow) (i : ℕ) : Option ℚ :=
  groupCol (fun r => r.reb) (shiftRollMean 10 1) tl i

/-- Column `ast_L5` of `_build_latest_features`. -/
def ast_L5 (tl : List StatRow) (i : ℕ) : Option ℚ :=
  groupCol (fun r => r.ast) (shiftRollMean 5 1) tl i

/-- Column `ast_L10` of `_build_latest_features`. -/
def ast_L10 (tl : List StatRow) (i : ℕ) : Option ℚ :=
  groupCol (fun r => r.ast) (shiftRollMean 10 1) tl i

/-- Column `min_L5` of `_build_latest_features`. -/
def min_L5 (tl : List StatRow) (i : ℕ) : Option ℚ :=
  groupCol (fun r => r.min) (shiftRollMean 5 1) tl i

/-- Column `min_L10` of `_build_latest_features`. -/
def min_L10 (tl : List StatRow) (i : ℕ) : Option ℚ :=
  groupCol (fun r => r.min) (shiftRollMean 10 1) tl i

/-- Column `fg_pct_L5` of `_build_latest_features`. -/
def fg_pct_L5 (tl : List StatRow) (i : ℕ) : Option ℚ :=
  groupCol (fun r => r.fg_pct) (shiftRollMean 5 1) tl i

/-- Column `fg_pct_L10` of `_build_latest_features`. -/
def fg_pct_L10 (tl : List StatRow) (i : ℕ) : Option ℚ :=
  groupCol (fun r => r.fg_pct) (shiftRollMean 10 1) tl i

/-- Column `pts_ema_L5` of `_build_latest_features` (span 5, `a = 1/3`). -/
def pts_ema_L5 (tl : List StatRow) (i : ℕ) : Option ℚ :=
  groupCol (fun r => r.pts) (shiftEwmMean (1/3)) tl i

/-- Column `reb_ema_L5` of `_build_latest_features`. -/
def reb_ema_L5 (tl : List StatRow) (i : ℕ) : Option ℚ :=
  groupCol (fun r => r.reb) (shiftEwmMean (1/3)) tl i

/-- Column `ast_ema_L5` of `_build_latest_features`. -/
def ast_ema_L5 (tl : List StatRow) (i : ℕ) : Option ℚ :=
  groupCol (fun r => r.ast) (shiftEwmMean (1/3)) tl i

/-- Column `pts_std_L10` of `_build_latest_features`. -/
def pts_std_L10 (sq : ℚ → ℚ) (tl : List StatRow) (i : ℕ) : Option ℚ :=
  groupCol (fun r => r.pts) (shiftRollStd sq 10 5) tl i

/-- The rows entering the defense aggregation of `_build_latest_features`
(null opponent keys are dropped by pandas groupby). -/
def defInput (tl : List StatRow) : List (DefKey × ℚ) :=
  tl.filterMap (fun r =>
    match opponentRow r with
    | none => none
    | some o => some (⟨r.game_id, r.date, o⟩, r.pts))

/-- The defense table of `_build_latest_features` (lines 178-184):
`groupby(["game_id", "date", "opponent"]).sum()` then
`sort_values(["opponent", "date"])`. -/
def defenseTable (tl : List StatRow) : List (DefKey × ℚ) :=
  let input := defInput tl
  let keys := Pandas.sortBy defKeyLe (input.map (fun p => p.1)).dedup
  let grouped := keys.map (fun k =>
    (k, ((input.filter (fun p => p.1 == k)).map (fun p => p.2)).sum))
  Pandas.sortBy (fun a b => oppDateLe a.1 b.1) grouped

/-- Column `opp_pts_allowed_L10` of the defense table (lines 185-187). -/
def defColAt (tbl : List (DefKey × ℚ)) (j : ℕ) : Option ℚ :=
  let o := (tbl.getD j default).1.opponent
  shiftRollMean 10 1
    ((tbl.filter (fun p => p.1.opponent == o)).map (fun p => some p.2))
    (((tbl.take j).filter (fun p => p.1.opponent == o)).length)

/-- The defense table with its rolling column attached. -/
def defenseWithRoll (tl : List StatRow) : List (DefKey × Option ℚ) :=
  let tbl := defenseTable tl
  (List.range tbl.length).map (fun j => ((tbl.getD j default).1, defColAt tbl j))

/-- The left merge of lines 189-193 on `["game_id", "opponent"]`. -/
def mergeDefense (tbl : List (DefKey × Option ℚ)) (r : StatRow) : Option ℚ :=
  match opponentRow r with
  | none => none
  | some o =>
    match tbl.find? (fun p => p.1.game_id == r.game_id && p.1.opponent == o) with
    | none => none
    | some p => p.2

/-- The full 17-column feature row computed by `_build_latest_features`
at row `i` of the sorted frame. -/
def featuresAt (sq : ℚ → ℚ) (df : List StatRow) (i : ℕ) : FeatRow :=
  let tl := sortHistory df
  { is_home := isHomeRow (tl.getD i default)
    days_rest := daysRestCol tl i
    opp_pts_allowed_L10 := mergeDefense (defenseWithRoll tl) (tl.getD i default)
    pts_L5 := pts_L5 tl i
    pts_L10 := pts_L10 tl i
    pts_ema_L5 := pts_ema_L5 tl i
    pts_std_L10 := pts_std_L10 sq tl i
    reb_L5 := reb_L5 tl i
    reb_L10 := reb_L10 tl i
    reb_ema_L5 := reb_ema_L5 tl i
    ast_L5 := ast_L5 tl i
    ast_L10 := ast_L10 tl i
    ast_ema_L5 := ast_ema_L5 tl i
    min_L5 := min_L5 tl i
    min_L10 := min_L10 tl i
    fg_pct_L5 := fg_pct_L5 tl i
    fg_pct_L10 := fg_pct_L10 tl i }

end Views

namespace Probability

open PyStr

/-!
Embedding of src/backend/nba_betting/services/probability.py.  The scipy
distribution functions are parameters: `ncdf` models `norm.cdf` and `pcdf`
models `poisson.cdf` (first argument the evaluation point, second the
mean).  Python's default argument `rmse=6.0` is modelled by passing
`some 6` at call sites that omit the argument; an explicit `None` is
`none`.
-/

/-- `LOW_COUNT_STATS = {"stl", "blk", "ast"}`. -/
def LOW_COUNT_STATS : List String := ["stl", "blk", "ast"]

/-- `HIGH_COUNT_STATS = {"pts", "reb", "pra"}`. -/
def HIGH_COUNT_STATS : List String := ["pts", "reb", "pra"]

/-- The divisor guard `denom = rmse if rmse and rmse > 0 else 1.0`:
`None` and `0` are falsy, a negative value fails `rmse > 0`, so anything
but a positive number is replaced by `1.0`. -/
def pyDenom : Option ℚ → ℚ
  | none => 1
  | some r => if 0 < r then r else 1

/-- Embedding of `calculate_probability(stat, projection, line, rmse)`
(probability.py lines 10-28). -/
def calculate_probability (ncdf : ℚ → ℚ) (pcdf : ℤ → ℚ → ℚ)
    (stat : Option String) (projection line : ℚ) (rmse : Option ℚ) : ℚ :=
  let stat_key := pyStrip (pyLower (stat.getD ""))
  if LOW_COUNT_STATS.contains stat_key then
    let mu := max projection 0
    let target := ⌊line⌋
    1 - pcdf target mu
  else if HIGH_COUNT_STATS.contains stat_key then
    let denom := pyDenom rmse
    ncdf ((projection - line) / denom)
  else
    let denom := pyDenom rmse
    ncdf ((projection - line) / denom)

end Probability

namespace Views

/-- The success-path payload assembled by `ManualPredictionView.post`
(views.py lines 101-115). -/
structure PredictionResponse where
  projection : ℚ
  probability_over : ℚ
  probability_under : ℚ
  edge : String
deriving DecidableEq, Repr

/-- Embedding of the probability/direction assembly of
`ManualPredictionView.post` (views.py lines 101-104): the model projection
is translated through `calculate_probability` (with its default rmse),
the under-probability is the complement, and the direction label follows
the 0.5 threshold. -/
def manualPrediction (ncdf : ℚ → ℚ) (pcdf : ℤ → ℚ → ℚ)
    (stat : Option String) (projection line : ℚ) : PredictionResponse :=
  let probability_over :=
    Probability.calculate_probability ncdf pcdf stat projection line (some 6)
  let probability_under := 1 - probability_over
  let edge := if (1/2 : ℚ) ≤ probability_over then "Over" else "Under"
  { projection := projection
    probability_over := probability_over
    probability_under := probability_under
    edge := edge }

end Views

namespace Recenter

/-- Modelled from the spec: the baseline-probability re-centering path of
the Probability Translator (spec section 4.6) has no implementation under
src/ (probability.py contains only the direct-projection path), so it is
modelled from the spec's words: re-derive an implied z-score from the
baseline probability via the inverse Normal CDF clamped to plus or minus
3.5, shift it by (line - rolling_average)/sigma, map back through the
Normal CDF, and clamp the result to [0.01, 0.99].  `ncdf` models the
Normal CDF and `nppf` its inverse. -/
def recenter_probability (ncdf nppf : ℚ → ℚ)
    (baseline rolling_average line sigma : ℚ) : ℚ :=
  let z := max (-(7/2) : ℚ) (min (7/2) (nppf baseline))
  let shifted := z - (line - rolling_average) / sigma
  let p := ncdf shifted
  max (1/100) (min (99/100) p)

end Recenter

/-!
List facts used to reason about groupby-transform alignment under row
edits.
-/

/-- Setting an element at or past the take boundary leaves the prefix
unchanged. -/
theorem takeSetSelf {α : Type} (l : List α) (i : ℕ) (a : α) :
    (l.set i a).take i = l.take i := by
  induction l generalizing i with
  | nil => simp
  | cons h t ih =>
    cases i with
    | zero => simp
    | succ j => simpa using ih j

/-- Set commutes with take. -/
theorem takeSetComm {α : Type} (l : List α) (i j : ℕ) (a : α) :
    (l.set j a).take i = (l.take i).set j a := by
  induction l generalizing i j with
  | nil => simp
  | cons h t ih =>
    cases i with
    | zero => simp
    | succ m =>
      cases j with
      | zero => simp
      | succ k => simpa using ih m k

/-- Filtered image of a set-update is unchanged when the replacement has
the same filter verdict and the same image as the replaced element. -/
theorem filterMapSet {α β : Type} (p : α → Bool) (m : α → β) (d : α)
    (l : List α) (j : ℕ) (a : α)
    (hp : p a = p (l.getD j d)) (hm : m a = m (l.getD j d)) :
    ((l.set j a).filter p).map m = (l.filter p).map m := by
  induction l generalizing j with
  | nil => simp
  | cons h t ih =>
    cases j with
    | zero =>
      simp only [List.getD_cons_zero] at hp hm
      simp only [List.set_cons_zero, List.filter_cons]
      rw [hp]
      cases hph : p h with
      | false => simp
      | true => simp [hm]
    | succ k =>
      simp only [List.getD_cons_succ] at hp hm
      simp only [List.set_cons_succ, List.filter_cons]
      cases hph : p h with
      | false => simpa using ih k hp hm
      | true => simp [ih k hp hm]

/-- Length version of `filterMapSet`. -/
theorem lengthFilterSet {α : Type} (p : α → Bool) (d : α)
    (l : List α) (j : ℕ) (a : α) (hp : p a = p (l.getD j d)) :
    ((l.set j a).filter p).length = (l.filter p).length := by
  have h := filterMapSet p (fun _ => Unit.unit) d l j a hp rfl
  have h1 := congrArg List.length h
  simpa [List.length_map] using h1

/-- Taking the filtered prefix out of the filtered whole list. -/
theorem filterTakePrefix {α : Type} (p : α → Bool) (l : List α) (i : ℕ) :
    (l.filter p).take ((l.take i).filter p).length = (l.take i).filter p := by
  have h : (((l.take i) ++ (l.drop i)).filter p).take
      ((l.take i).filter p).length = (l.take i).filter p := by
    rw [List.filter_append, List.take_left]
  rwa [List.take_append_drop] at h

/-- getD of a take agrees with getD below the boundary. -/
theorem getDTake {α : Type} (l : List α) (i j : ℕ) (d : α) (h : j < i) :
    (l.take i).getD j d = l.getD j d := by
  rw [List.getD_eq_getElem?_getD, List.getD_eq_getElem?_getD,
    List.getElem?_take, if_pos h]

/-- getD after setting another index. -/
theorem getDSetNe {α : Type} (l : List α) (i j : ℕ) (a : α) (d : α)
    (h : i ≠ j) : (l.set i a).getD j d = l.getD j d := by
  rw [List.getD_eq_getElem?_getD, List.getD_eq_getElem?_getD,
    List.getElem?_set_ne h]

/-- getD after setting the same index, in range. -/
theorem getDSetSelf {α : Type} (l : List α) (i : ℕ) (a : α) (d : α)
    (h : i < l.length) : (l.set i a).getD i d = a := by
  rw [List.getD_eq_getElem?_getD, List.getElem?_set_self]
  · rfl
  · exact h

namespace Pandas

/-- The shifted rolling mean at position `j` only reads the series strictly
before `j`. -/
theorem shiftRollMean_congr_take (w m : ℕ) (s t : List (Option ℚ)) (j : ℕ)
    (h : s.take j = t.take j) :
    shiftRollMean w m s j = shiftRollMean w m t j := by
  simp only [shiftRollMean, trailing, h]

/-- The shifted rolling std at position `j` only reads the series strictly
before `j`. -/
theorem shiftRollStd_congr_take (sq : ℚ → ℚ) (w m : ℕ)
    (s t : List (Option ℚ)) (j : ℕ) (h : s.take j = t.take j) :
    shiftRollStd sq w m s j = shiftRollStd sq w m t j := by
  simp only [shiftRollStd, trailing, h]

/-- The shifted EWM at position `j` only reads the series strictly before
`j`. -/
theorem shiftEwmMean_congr_take (a : ℚ) (s t : List (Option ℚ)) (j : ℕ)
    (h : s.take j = t.take j) :
    shiftEwmMean a s j = shiftEwmMean a t j := by
  simp only [shiftEwmMean, h]

/-- Replacing row `i` of a frame by a row of the same player leaves every
groupby-transform column at row `i` unchanged, provided the window
function only reads series entries strictly before its position:
the transform at row `i` is computed over the masked values of the
player's rows strictly before `i`. -/
theorem groupCol_set_self (f : StatRow → ℚ)
    (g : List (Option ℚ) → ℕ → Option ℚ)
    (hg : ∀ s t k, s.take k = t.take k → g s k = g t k)
    (tl : List StatRow) (i : ℕ) (r : StatRow)
    (hname : r.player_name = (tl.getD i default).player_name) :
    groupCol f g (tl.set i r) i = groupCol f g tl i := by
  by_cases hlen : i < tl.length
  · have hn : nameOf (tl.set i r) i = nameOf tl i := by
      unfold nameOf
      rw [getDSetSelf tl i r default hlen, hname]
    have hrank : rankOf (tl.set i r) i = rankOf tl i := by
      unfold rankOf
      rw [hn, takeSetSelf]
    have hsetdec := List.set_eq_take_cons_drop r hlen
    have hgrp : (groupOf (tl.set i r) i).take (rankOf tl i) =
        (groupOf tl i).take (rankOf tl i) := by
      unfold groupOf rankOf
      rw [hn, hsetdec, List.filter_append, List.take_left]
      exact (filterTakePrefix _ tl i).symm
    unfold groupCol
    rw [hrank]
    apply hg
    unfold maskedSeries
    rw [← List.map_take, ← List.map_take, hgrp]
  · rw [List.set_eq_of_length_le (Nat.le_of_not_lt hlen)]

/-- Replacing a garbage-time row (`min < 10`) of a frame by another
garbage-time row of the same player leaves every groupby-transform column
at every row unchanged: masked rows contribute nothing to any rolling
input. -/
theorem groupCol_set_masked (f : StatRow → ℚ)
    (g : List (Option ℚ) → ℕ → Option ℚ)
    (tl : List StatRow) (j : ℕ) (r : StatRow)
    (hj : (tl.getD j default).min < 10) (hr : r.min < 10)
    (hname : r.player_name = (tl.getD j default).player_name) (i : ℕ) :
    groupCol f g (tl.set j r) i = groupCol f g tl i := by
  by_cases hlen : j < tl.length
  · have hn : nameOf (tl.set j r) i = nameOf tl i := by
      unfold nameOf
      by_cases hij : j = i
      · subst hij
        rw [getDSetSelf tl j r default hlen, hname]
      · rw [getDSetNe tl j i r default hij]
    have hpr : ∀ (n : String),
        (fun x : StatRow => x.player_name == n) r =
        (fun x : StatRow => x.player_name == n) (tl.getD j default) := by
      intro n
      simp only [hname]
    have hmr : maskFn f r = maskFn f (tl.getD j default) := by
      unfold maskFn
      rw [if_pos hr, if_pos hj]
    have hrank : rankOf (tl.set j r) i = rankOf tl i := by
      unfold rankOf
      rw [hn, takeSetComm]
      by_cases hji : j < i
      · exact lengthFilterSet _ default (tl.take i) j r
          (by rw [getDTake tl i j default hji]; exact hpr _)
      · rw [List.set_eq_of_length_le
          (le_trans (List.length_take_le i tl) (Nat.le_of_not_lt hji))]
    have hser : maskedSeries f (groupOf (tl.set j r) i) =
        maskedSeries f (groupOf tl i) := by
      unfold maskedSeries groupOf
      rw [hn]
      exact filterMapSet _ (maskFn f) default tl j r (hpr _) hmr
    unfold groupCol
    rw [hrank, hser]
  · rw [List.set_eq_of_length_le (Nat.le_of_not_lt hlen)]

end Pandas

/-- C1: for every player history, the training-data export pipeline
(src/notebooks/feature_engineering.py) and the live single-player
inference pipeline (views.py `_build_latest_features`) compute numerically
identical values for each of the 17 feature columns (is_home, days_rest,
opp_pts_allowed_L10, the rolling means, EMAs and standard deviation) on
the same input rows. -/
theorem export_and_inference_features_agree (sq : ℚ → ℚ)
    (df : List StatRow) (i : ℕ) :
    FeatEng.featuresAt sq df i = Views.featuresAt sq df i := rfl

/-- C4: the spec-modelled baseline-probability re-centering path derives
the implied z-score via the inverse Normal CDF clamped to plus or minus
3.5, shifts it by (line - rolling_average)/sigma, maps back through the
Normal CDF, and the returned probability is always clamped into
[0.01, 0.99], hence never exactly 0 or 1. -/
theorem recenter_probability_clamped (ncdf nppf : ℚ → ℚ)
    (baseline rolling_average line sigma : ℚ) :
    Recenter.recenter_probability ncdf nppf baseline rolling_average line sigma =
      max (1/100) (min (99/100)
        (ncdf (max (-(7/2) : ℚ) (min (7/2) (nppf baseline)) -
          (line - rolling_average) / sigma))) ∧
    |max (-(7/2) : ℚ) (min (7/2) (nppf baseline))| ≤ 7/2 ∧
    1/100 ≤ Recenter.recenter_probability ncdf nppf baseline rolling_average line sigma ∧
    Recenter.recenter_probability ncdf nppf baseline rolling_average line sigma ≤ 99/100 ∧
    Recenter.recenter_probability ncdf nppf baseline rolling_average line sigma ≠ 0 ∧
    Recenter.recenter_probability ncdf nppf baseline rolling_average line sigma ≠ 1 := by
  have hlb : (1/100 : ℚ) ≤
      Recenter.recenter_probability ncdf nppf baseline rolling_average line sigma :=
    le_max_left _ _
  have hub : Recenter.recenter_probability ncdf nppf baseline rolling_average line sigma ≤
      99/100 := by
    apply max_le
    · norm_num
    · exact min_le_left _ _
  refine ⟨rfl, ?_, hlb, hub, ?_, ?_⟩
  · rw [abs_le]
    constructor
    · exact le_max_left _ _
    · apply max_le
      · norm_num
      · exact min_le_left _ _
  · intro h
    rw [h] at hlb
    norm_num at hlb
  · intro h
    rw [h] at hub
    norm_num at hub

/-- C7: for every prediction response assembled by
`ManualPredictionView.post`, the under-probability is exactly the
complement of the over-probability (so the two sum to 1), and the direction
label is Over exactly when the over-probability is at least one half. -/
theorem manual_prediction_complementary (ncdf : ℚ → ℚ) (pcdf : ℤ → ℚ → ℚ)
    (stat : Option String) (projection line : ℚ) :
    (Views.manualPrediction ncdf pcdf stat projection line).probability_under =
      1 - (Views.manualPrediction ncdf pcdf stat projection line).probability_over ∧
    (Views.manualPrediction ncdf pcdf stat projection line).probability_over +
      (Views.manualPrediction ncdf pcdf stat projection line).probability_under = 1 ∧
    ((Views.manualPrediction ncdf pcdf stat projection line).edge = "Over" ↔
      1/2 ≤ (Views.manualPrediction ncdf pcdf stat projection line).probability_over) ∧
    ((Views.manualPrediction ncdf pcdf stat projection line).edge = "Under" ↔
      (Views.manualPrediction ncdf pcdf stat projection line).probability_over < 1/2) := by
  unfold Views.manualPrediction
  refine ⟨rfl, by ring, ?_, ?_⟩
  · by_cases h : (1/2 : ℚ) ≤
        Probability.calculate_probability ncdf pcdf stat projection line (some 6)
    · simp [h]
    · simp only [if_neg h]
      constructor
      · intro hcontr
        exact absurd hcontr (by decide)
      · intro hcontr
        exact absurd hcontr h
  · by_cases h : (1/2 : ℚ) ≤
        Probability.calculate_probability ncdf pcdf stat projection line (some 6)
    · simp only [if_pos h]
      constructor
      · intro hcontr
        exact absurd hcontr (by decide)
      · intro hcontr
        exact absurd h (not_le.mpr hcontr)
    · simp [h, lt_of_not_le h]

namespace Probability

/-- A stat key in the low-count set is never in the high-count set. -/
theorem low_not_high (s : String) (h : LOW_COUNT_STATS.contains s = true) :
    HIGH_COUNT_STATS.contains s = false := by
  simp only [LOW_COUNT_STATS, List.contains_cons, List.contains_nil,
    Bool.or_eq_true, beq_iff_eq] at h
  rcases h with h | h | h | h
  · subst h; decide
  · subst h; decide
  · subst h; decide
  · exact absurd h (by decide)

/-- A stat key in the high-count set is never in the low-count set. -/
theorem high_not_low (s : String) (h : HIGH_COUNT_STATS.contains s = true) :
    LOW_COUNT_STATS.contains s = false := by
  simp only [HIGH_COUNT_STATS, List.contains_cons, List.contains_nil,
    Bool.or_eq_true, beq_iff_eq] at h
  rcases h with h | h | h | h
  · subst h; decide
  · subst h; decide
  · subst h; decide
  · exact absurd h (by decide)

end Probability

/-- C5: in the direct-projection path, a low-count stat (ast, stl, blk)
gets over-probability 1 - PoissonCDF(floor(line), max(projection, 0)); a
high-count stat (pts, reb, pra) gets NormalCDF((projection - line)/sigma)
for any supplied positive sigma, with sigma 6.0 substituted when the
caller leaves the residual estimate at its default. -/
theorem calculate_probability_direct_paths (ncdf : ℚ → ℚ)
    (pcdf : ℤ → ℚ → ℚ) (stat : Option String) (projection line : ℚ)
    (rmse : Option ℚ) (sigma : ℚ) :
    (Probability.LOW_COUNT_STATS.contains
        (PyStr.pyStrip (PyStr.pyLower (stat.getD ""))) = true →
      Probability.calculate_probability ncdf pcdf stat projection line rmse =
        1 - pcdf ⌊line⌋ (max projection 0)) ∧
    (Probability.HIGH_COUNT_STATS.contains
        (PyStr.pyStrip (PyStr.pyLower (stat.getD ""))) = true →
      0 < sigma →
      Probability.calculate_probability ncdf pcdf stat projection line (some sigma) =
        ncdf ((projection - line) / sigma)) ∧
    (Probability.HIGH_COUNT_STATS.contains
        (PyStr.pyStrip (PyStr.pyLower (stat.getD ""))) = true →
      Probability.calculate_probability ncdf pcdf stat projection line (some 6) =
        ncdf ((projection - line) / 6)) := by
  refine ⟨?_, ?_, ?_⟩
  · intro hlow
    simp only [Probability.calculate_probability, hlow, if_true]
  · intro hhigh hsigma
    have hlow := Probability.high_not_low _ hhigh
    simp only [Probability.calculate_probability, hlow, hhigh,
      Bool.false_eq_true, if_false, if_true, Probability.pyDenom,
      if_pos hsigma]
  · intro hhigh
    have hlow := Probability.high_not_low _ hhigh
    have h6 : (0 : ℚ) < 6 := by norm_num
    simp only [Probability.calculate_probability, hlow, hhigh,
      Bool.false_eq_true, if_false, if_true, Probability.pyDenom,
      if_pos h6]

/-- Witness for C5 at concrete inputs: the stat strings are normalised
through lower/strip, the Poisson path fires for assists and the Normal
path for points, with the 6.0 default divisor. -/
theorem calculate_probability_direct_paths_witness :
    Probability.calculate_probability (fun z => z) (fun _ m => m)
      (some " AST ") 2 3 (some 6) = 1 - max (2 : ℚ) 0 ∧
    Probability.calculate_probability (fun z => z) (fun _ m => m)
      (some "pts") 2 3 (some 4) = ((2 : ℚ) - 3) / 4 ∧
    Probability.calculate_probability (fun z => z) (fun _ m => m)
      (some "pts") 2 3 (some 6) = ((2 : ℚ) - 3) / 6 :=
  ⟨(calculate_probability_direct_paths (fun z => z) (fun _ m => m)
      (some " AST ") 2 3 (some 6) 4).1 (by decide),
   (calculate_probability_direct_paths (fun z => z) (fun _ m => m)
      (some "pts") 2 3 (some 6) 4).2.1 (by decide) (by norm_num),
   (calculate_probability_direct_paths (fun z => z) (fun _ m => m)
      (some "pts") 2 3 (some 6) 4).2.2 (by decide)⟩

/-- C10: the probability translation is total: a stat outside both stat
sets silently falls back to the Normal path; a missing, zero or negative
standard deviation is replaced by the divisor 1.0 (which is always
positive, so no division by zero arises); and whenever the distribution
functions return probabilities, the result lies in [0, 1]. -/
theorem calculate_probability_total (ncdf : ℚ → ℚ) (pcdf : ℤ → ℚ → ℚ)
    (stat : Option String) (projection line : ℚ) (rmse : Option ℚ)
    (hn : ∀ z, 0 ≤ ncdf z ∧ ncdf z ≤ 1)
    (hp : ∀ k m, 0 ≤ pcdf k m ∧ pcdf k m ≤ 1) :
    0 < Probability.pyDenom rmse ∧
    (rmse = none ∨ rmse = some 0 ∨ (∃ r, rmse = some r ∧ r < 0) →
      Probability.pyDenom rmse = 1) ∧
    (Probability.LOW_COUNT_STATS.contains
        (PyStr.pyStrip (PyStr.pyLower (stat.getD ""))) = false →
     Probability.HIGH_COUNT_STATS.contains
        (PyStr.pyStrip (PyStr.pyLower (stat.getD ""))) = false →
      Probability.calculate_probability ncdf pcdf stat projection line rmse =
        ncdf ((projection - line) / Probability.pyDenom rmse)) ∧
    0 ≤ Probability.calculate_probability ncdf pcdf stat projection line rmse ∧
    Probability.calculate_probability ncdf pcdf stat projection line rmse ≤ 1 := by
  refine ⟨?_, ?_, ?_, ?_, ?_⟩
  · cases rmse with
    | none => norm_num [Probability.pyDenom]
    | some r =>
      by_cases h : 0 < r
      · simp [Probability.pyDenom, h]
      · simp only [Probability.pyDenom, if_neg h]
        norm_num
  · intro h
    rcases h with h | h | ⟨r, hr, hneg⟩
    · rw [h]
      rfl
    · rw [h]
      simp [Probability.pyDenom]
    · rw [hr]
      simp only [Probability.pyDenom, if_neg (not_lt.mpr (le_of_lt hneg))]
  · intro hlow hhigh
    simp only [Probability.calculate_probability, hlow, hhigh,
      Bool.false_eq_true, if_false]
  · unfold Probability.calculate_probability
    by_cases hlow : Probability.LOW_COUNT_STATS.contains
        (PyStr.pyStrip (PyStr.pyLower (stat.getD ""))) = true
    · simp only [hlow, if_true]
      have := hp ⌊line⌋ (max projection 0)
      linarith [this.1, this.2]
    · simp only [Bool.not_eq_true] at hlow
      simp only [hlow, Bool.false_eq_true, if_false]
      by_cases hhigh : Probability.HIGH_COUNT_STATS.contains
          (PyStr.pyStrip (PyStr.pyLower (stat.getD ""))) = true
      · simp only [hhigh, if_true]
        exact (hn _).1
      · simp only [Bool.not_eq_true] at hhigh
        simp only [hhigh, Bool.false_eq_true, if_false]
        exact (hn _).1
  · unfold Probability.calculate_probability
    by_cases hlow : Probability.LOW_COUNT_STATS.contains
        (PyStr.pyStrip (PyStr.pyLower (stat.getD ""))) = true
    · simp only [hlow, if_true]
      have := hp ⌊line⌋ (max projection 0)
      linarith [this.1, this.2]
    · simp only [Bool.not_eq_true] at hlow
      simp only [hlow, Bool.false_eq_true, if_false]
      by_cases hhigh : Probability.HIGH_COUNT_STATS.contains
          (PyStr.pyStrip (PyStr.pyLower (stat.getD ""))) = true
      · simp only [hhigh, if_true]
        exact (hn _).2
      · simp only [Bool.not_eq_true] at hhigh
        simp only [hhigh, Bool.false_eq_true, if_false]
        exact (hn _).2

/-- Witness for C10 at concrete inputs: an unrecognised stat string and an
absent standard deviation, with constant distribution functions. -/
theorem calculate_probability_total_witness :
    0 < Probability.pyDenom none ∧
    ((none : Option ℚ) = none ∨ (none : Option ℚ) = some 0 ∨
      (∃ r, (none : Option ℚ) = some r ∧ r < 0) →
      Probability.pyDenom none = 1) ∧
    (Probability.LOW_COUNT_STATS.contains
        (PyStr.pyStrip (PyStr.pyLower ((some "fouls").getD ""))) = false →
     Probability.HIGH_COUNT_STATS.contains
        (PyStr.pyStrip (PyStr.pyLower ((some "fouls").getD ""))) = false →
      Probability.calculate_probability (fun _ => 1/2) (fun _ _ => 1/2)
        (some "fouls") 11 (21/2) none =
        (fun _ : ℚ => (1/2 : ℚ)) ((11 - 21/2) / Probability.pyDenom none)) ∧
    0 ≤ Probability.calculate_probability (fun _ => 1/2) (fun _ _ => 1/2)
        (some "fouls") 11 (21/2) none ∧
    Probability.calculate_probability (fun _ => 1/2) (fun _ _ => 1/2)
        (some "fouls") 11 (21/2) none ≤ 1 :=
  calculate_probability_total (fun _ => 1/2) (fun _ _ => 1/2)
    (some "fouls") 11 (21/2) none
    (fun _ => ⟨by norm_num, by norm_num⟩)
    (fun _ _ => ⟨by norm_num, by norm_num⟩)

/-- C2: every rolling feature at row `i` depends only on rows strictly
before `i`: replacing row `i` itself (same player, arbitrary other stat
values) leaves each of the 14 rolling columns at row `i` unchanged; in
particular clobbering the row's own outcome values changes nothing. -/
theorem rolling_features_no_leakage (sq : ℚ → ℚ) (tl : List StatRow)
    (i : ℕ) (r : StatRow)
    (hname : r.player_name = (tl.getD i default).player_name) :
    Features.pts_L5 (tl.set i r) i = Features.pts_L5 tl i ∧
    Features.pts_L10 (tl.set i r) i = Features.pts_L10 tl i ∧
    Features.reb_L5 (tl.set i r) i = Features.reb_L5 tl i ∧
    Features.reb_L10 (tl.set i r) i = Features.reb_L10 tl i ∧
    Features.ast_L5 (tl.set i r) i = Features.ast_L5 tl i ∧
    Features.ast_L10 (tl.set i r) i = Features.ast_L10 tl i ∧
    Features.min_L5 (tl.set i r) i = Features.min_L5 tl i ∧
    Features.min_L10 (tl.set i r) i = Features.min_L10 tl i ∧
    Features.fg_pct_L5 (tl.set i r) i = Features.fg_pct_L5 tl i ∧
    Features.fg_pct_L10 (tl.set i r) i = Features.fg_pct_L10 tl i ∧
    Features.pts_ema_L5 (tl.set i r) i = Features.pts_ema_L5 tl i ∧
    Features.reb_ema_L5 (tl.set i r) i = Features.reb_ema_L5 tl i ∧
    Features.ast_ema_L5 (tl.set i r) i = Features.ast_ema_L5 tl i ∧
    Features.pts_std_L10 sq (tl.set i r) i = Features.pts_std_L10 sq tl i := by
  refine ⟨?_, ?_, ?_, ?_, ?_, ?_, ?_, ?_, ?_, ?_, ?_, ?_, ?_, ?_⟩ <;>
  first
    | exact Pandas.groupCol_set_self _ _
        (fun s t k h => Pandas.shiftRollMean_congr_take _ _ s t k h) tl i r hname
    | exact Pandas.groupCol_set_self _ _
        (fun s t k h => Pandas.shiftEwmMean_congr_take _ s t k h) tl i r hname
    | exact Pandas.groupCol_set_self _ _
        (fun s t k h => Pandas.shiftRollStd_congr_take _ _ _ s t k h) tl i r hname

/-- Concrete two-game timeline for the no-leakage witness. -/
def c2tl : List StatRow :=
  [{ date := 0, game_id := 1, player_name := "A", player_team := some "BOS",
     home_team := some "BOS", away_team := some "NYK",
     pts := 10, reb := 4, ast := 2, min := 30, fg_pct := 1/2 },
   { date := 2, game_id := 2, player_name := "A", player_team := some "BOS",
     home_team := some "NYK", away_team := some "BOS",
     pts := 99, reb := 9, ast := 9, min := 31, fg_pct := 1 }]

/-- Replacement row clobbering every outcome value of the second game. -/
def c2r : StatRow :=
  { date := 2, game_id := 2, player_name := "A", player_team := some "BOS",
    home_team := some "NYK", away_team := some "BOS",
    pts := 0, reb := 0, ast := 0, min := 0, fg_pct := 0 }

/-- Witness for C2: clobbering the second game's own stat values leaves
every rolling feature at that row unchanged. -/
theorem rolling_features_no_leakage_witness :
    c2r.player_name = (c2tl.getD 1 default).player_name ∧
    (Features.pts_L5 (c2tl.set 1 c2r) 1 = Features.pts_L5 c2tl 1 ∧
     Features.pts_L10 (c2tl.set 1 c2r) 1 = Features.pts_L10 c2tl 1 ∧
     Features.reb_L5 (c2tl.set 1 c2r) 1 = Features.reb_L5 c2tl 1 ∧
     Features.reb_L10 (c2tl.set 1 c2r) 1 = Features.reb_L10 c2tl 1 ∧
     Features.ast_L5 (c2tl.set 1 c2r) 1 = Features.ast_L5 c2tl 1 ∧
     Features.ast_L10 (c2tl.set 1 c2r) 1 = Features.ast_L10 c2tl 1 ∧
     Features.min_L5 (c2tl.set 1 c2r) 1 = Features.min_L5 c2tl 1 ∧
     Features.min_L10 (c2tl.set 1 c2r) 1 = Features.min_L10 c2tl 1 ∧
     Features.fg_pct_L5 (c2tl.set 1 c2r) 1 = Features.fg_pct_L5 c2tl 1 ∧
     Features.fg_pct_L10 (c2tl.set 1 c2r) 1 = Features.fg_pct_L10 c2tl 1 ∧
     Features.pts_ema_L5 (c2tl.set 1 c2r) 1 = Features.pts_ema_L5 c2tl 1 ∧
     Features.reb_ema_L5 (c2tl.set 1 c2r) 1 = Features.reb_ema_L5 c2tl 1 ∧
     Features.ast_ema_L5 (c2tl.set 1 c2r) 1 = Features.ast_ema_L5 c2tl 1 ∧
     Features.pts_std_L10 id (c2tl.set 1 c2r) 1 = Features.pts_std_L10 id c2tl 1) :=
  ⟨rfl, rolling_features_no_leakage id c2tl 1 c2r rfl⟩

/-- The spec's garbage-time scenario: minutes [30, 5, 30] with points
[20, 40, 20] for one player on consecutive days. -/
def c3tl : List StatRow :=
  [{ date := 0, game_id := 1, player_name := "A", player_team := some "BOS",
     home_team := some "BOS", away_team := some "NYK",
     pts := 20, reb := 0, ast := 0, min := 30, fg_pct := 0 },
   { date := 1, game_id := 2, player_name := "A", player_team := some "BOS",
     home_team := some "BOS", away_team := some "NYK",
     pts := 40, reb := 0, ast := 0, min := 5, fg_pct := 0 },
   { date := 2, game_id := 3, player_name := "A", player_team := some "BOS",
     home_team := some "BOS", away_team := some "NYK",
     pts := 20, reb := 0, ast := 0, min := 30, fg_pct := 0 }]

/-- A different garbage-time row for the same player (still under 10
minutes, other stats arbitrary). -/
def c3r : StatRow :=
  { date := 1, game_id := 2, player_name := "A", player_team := some "BOS",
    home_team := some "BOS", away_team := some "NYK",
    pts := 77, reb := 7, ast := 7, min := 9, fg_pct := 1 }

/-- C3: rows with fewer than 10 minutes are excluded from the inputs of
all rolling computations — replacing a masked row by any other masked row
of the same player changes no rolling column anywhere — while the masked
row itself stays in the timeline and still receives features from the
surrounding valid history: on minutes [30, 5, 30] with points
[20, 40, 20], pts_L5 at the third row is 20 (the 40-point game does not
contribute), and the masked second row also gets pts_L5 = 20. -/
theorem garbage_time_masking :
    (∀ (tl : List StatRow) (j : ℕ) (r : StatRow) (sq : ℚ → ℚ),
      (tl.getD j default).min < 10 → r.min < 10 →
      r.player_name = (tl.getD j default).player_name →
      ∀ i : ℕ,
        Features.pts_L5 (tl.set j r) i = Features.pts_L5 tl i ∧
        Features.pts_L10 (tl.set j r) i = Features.pts_L10 tl i ∧
        Features.reb_L5 (tl.set j r) i = Features.reb_L5 tl i ∧
        Features.reb_L10 (tl.set j r) i = Features.reb_L10 tl i ∧
        Features.ast_L5 (tl.set j r) i = Features.ast_L5 tl i ∧
        Features.ast_L10 (tl.set j r) i = Features.ast_L10 tl i ∧
        Features.min_L5 (tl.set j r) i = Features.min_L5 tl i ∧
        Features.min_L10 (tl.set j r) i = Features.min_L10 tl i ∧
        Features.fg_pct_L5 (tl.set j r) i = Features.fg_pct_L5 tl i ∧
        Features.fg_pct_L10 (tl.set j r) i = Features.fg_pct_L10 tl i ∧
        Features.pts_ema_L5 (tl.set j r) i = Features.pts_ema_L5 tl i ∧
        Features.reb_ema_L5 (tl.set j r) i = Features.reb_ema_L5 tl i ∧
        Features.ast_ema_L5 (tl.set j r) i = Features.ast_ema_L5 tl i ∧
        Features.pts_std_L10 sq (tl.set j r) i = Features.pts_std_L10 sq tl i) ∧
    Features.pts_L5 c3tl 2 = some 20 ∧
    Features.pts_L5 c3tl 1 = some 20 := by
  refine ⟨?_, ?_, ?_⟩
  · intro tl j r sq hj hr hname i
    refine ⟨?_, ?_, ?_, ?_, ?_, ?_, ?_, ?_, ?_, ?_, ?_, ?_, ?_, ?_⟩ <;>
      exact Pandas.groupCol_set_masked _ _ tl j r hj hr hname i
  · norm_num [Features.pts_L5, Pandas.groupCol, Pandas.groupOf,
      Pandas.nameOf, Pandas.rankOf, Pandas.maskedSeries, Pandas.maskFn,
      Pandas.shiftRollMean, Pandas.trailing, Pandas.valids, c3tl,
      List.filterMap_cons, id_eq, List.sum_cons, List.sum_nil]
  · norm_num [Features.pts_L5, Pandas.groupCol, Pandas.groupOf,
      Pandas.nameOf, Pandas.rankOf, Pandas.maskedSeries, Pandas.maskFn,
      Pandas.shiftRollMean, Pandas.trailing, Pandas.valids, c3tl,
      List.filterMap_cons, id_eq, List.sum_cons, List.sum_nil]

/-- Witness for C3: the universal part applied to the scenario timeline,
replacing the masked 40-point row by a different garbage-time row. -/
theorem garbage_time_masking_witness :
    (c3tl.getD 1 default).min < 10 ∧ c3r.min < 10 ∧
    c3r.player_name = (c3tl.getD 1 default).player_name ∧
    (Features.pts_L5 (c3tl.set 1 c3r) 2 = Features.pts_L5 c3tl 2 ∧
     Features.pts_L10 (c3tl.set 1 c3r) 2 = Features.pts_L10 c3tl 2 ∧
     Features.reb_L5 (c3tl.set 1 c3r) 2 = Features.reb_L5 c3tl 2 ∧
     Features.reb_L10 (c3tl.set 1 c3r) 2 = Features.reb_L10 c3tl 2 ∧
     Features.ast_L5 (c3tl.set 1 c3r) 2 = Features.ast_L5 c3tl 2 ∧
     Features.ast_L10 (c3tl.set 1 c3r) 2 = Features.ast_L10 c3tl 2 ∧
     Features.min_L5 (c3tl.set 1 c3r) 2 = Features.min_L5 c3tl 2 ∧
     Features.min_L10 (c3tl.set 1 c3r) 2 = Features.min_L10 c3tl 2 ∧
     Features.fg_pct_L5 (c3tl.set 1 c3r) 2 = Features.fg_pct_L5 c3tl 2 ∧
     Features.fg_pct_L10 (c3tl.set 1 c3r) 2 = Features.fg_pct_L10 c3tl 2 ∧
     Features.pts_ema_L5 (c3tl.set 1 c3r) 2 = Features.pts_ema_L5 c3tl 2 ∧
     Features.reb_ema_L5 (c3tl.set 1 c3r) 2 = Features.reb_ema_L5 c3tl 2 ∧
     Features.ast_ema_L5 (c3tl.set 1 c3r) 2 = Features.ast_ema_L5 c3tl 2 ∧
     Features.pts_std_L10 id (c3tl.set 1 c3r) 2 = Features.pts_std_L10 id c3tl 2) :=
  ⟨by decide, by decide, rfl,
   garbage_time_masking.1 c3tl 1 c3r id (by decide) (by decide) rfl 2⟩

/-- A row that survives garbage-time masking (at least 10 minutes). -/
def validRow (r : StatRow) : Bool := !(decide (r.min < 10))

/-- The number of valid (unmasked) observations of row `i`'s player
strictly before row `i`. -/
def validPriorCount (tl : List StatRow) (i : ℕ) : ℕ :=
  (((tl.take i).filter (fun r => r.player_name == Pandas.nameOf tl i)).filter
    validRow).length

/-- The number of valid observations among the (up to) 10 rows of row
`i`'s player immediately preceding row `i` — the prior rows actually
inside the 10-row rolling window. -/
def windowValidCount (tl : List StatRow) (i : ℕ) : ℕ :=
  ((((Pandas.groupOf tl i).take (Pandas.rankOf tl i)).drop
      (Pandas.rankOf tl i - 10)).filter validRow).length

/-- Counting the non-missing entries of a masked column series counts the
valid rows. -/
theorem maskCount (f : StatRow → ℚ) (l : List StatRow) :
    (Pandas.valids (Pandas.maskedSeries f l)).length =
      (l.filter validRow).length := by
  induction l with
  | nil => rfl
  | cons r t ih =>
    simp only [Pandas.maskedSeries, List.map_cons, Pandas.valids,
      List.filterMap_cons, Pandas.maskFn, List.filter_cons, validRow]
    by_cases h : r.min < 10
    · simp only [if_pos h, decide_eq_true h, Bool.not_true,
        Bool.false_eq_true, if_false]
      exact ih
    · simp only [if_neg h, decide_eq_false h, Bool.not_false, if_true,
        id_eq, List.length_cons]
      rw [← ih]
      rfl

/-- The trailing window never sees more valid values than the whole
shifted prefix. -/
theorem trailingLengthLe (w : ℕ) (s : List (Option ℚ)) (j : ℕ) :
    (Pandas.trailing w s j).length ≤ (Pandas.valids (s.take j)).length :=
  List.Sublist.length_le
    (List.Sublist.filterMap id (List.drop_sublist _ _))

/-- The prior rows of row `i`'s player are the filtered prefix. -/
theorem groupTakeRank (tl : List StatRow) (i : ℕ) :
    (Pandas.groupOf tl i).take (Pandas.rankOf tl i) =
      (tl.take i).filter
        (fun r => r.player_name == Pandas.nameOf tl i) := by
  unfold Pandas.groupOf Pandas.rankOf
  exact filterTakePrefix _ tl i

/-- Dropping a prefix of a masked series masks the dropped list. -/
theorem maskedSeriesDrop (f : StatRow → ℚ) (l : List StatRow) (n : ℕ) :
    List.drop n (Pandas.maskedSeries f l) = Pandas.maskedSeries f (l.drop n) := by
  unfold Pandas.maskedSeries
  rw [List.map_drop]

/-- C8 (amended): pts_std_L10 at a row is missing when the player has
exactly 4 valid prior observations, and is a defined value when exactly 5
of the (up to) 10 rows immediately preceding the row are valid; with more
than 10 prior rows, 5 valid priors that all fall outside the 10-row
window still yield a missing value (see the counterexample). -/
theorem std_min_periods_boundary (sq : ℚ → ℚ) (tl : List StatRow) (i : ℕ) :
    (validPriorCount tl i = 4 → Features.pts_std_L10 sq tl i = none) ∧
    (windowValidCount tl i = 5 →
      (Features.pts_std_L10 sq tl i).isSome = true) := by
  have hser : (Pandas.maskedSeries (fun r => r.pts)
        (Pandas.groupOf tl i)).take (Pandas.rankOf tl i) =
      Pandas.maskedSeries (fun r => r.pts)
        ((Pandas.groupOf tl i).take (Pandas.rankOf tl i)) := by
    unfold Pandas.maskedSeries
    rw [List.map_take]
  constructor
  · intro h4
    have hle : (Pandas.trailing 10
        (Pandas.maskedSeries (fun r => r.pts) (Pandas.groupOf tl i))
        (Pandas.rankOf tl i)).length ≤ 4 := by
      have h1 := trailingLengthLe 10
        (Pandas.maskedSeries (fun r => r.pts) (Pandas.groupOf tl i))
        (Pandas.rankOf tl i)
      rw [hser, maskCount, groupTakeRank] at h1
      unfold validPriorCount at h4
      omega
    simp only [Features.pts_std_L10, Pandas.groupCol, Pandas.shiftRollStd]
    split
    · next h => exact absurd h (by omega)
    · rfl
  · intro h5
    have heq : (Pandas.trailing 10
        (Pandas.maskedSeries (fun r => r.pts) (Pandas.groupOf tl i))
        (Pandas.rankOf tl i)).length = 5 := by
      unfold Pandas.trailing
      rw [hser, maskedSeriesDrop, maskCount]
      exact h5
    simp only [Features.pts_std_L10, Pandas.groupCol, Pandas.shiftRollStd]
    split
    · next h => exact Option.isSome_some
    · next h => exact absurd heq (by omega)

/-- A one-player stat row with the given date and minutes, used by the
min-periods examples. -/
def mkRowA (d : ℤ) (m : ℚ) : StatRow :=
  { date := d, game_id := d.toNat, player_name := "A",
    player_team := some "BOS", home_team := some "BOS",
    away_team := some "NYK", pts := 10 + (d : ℚ), reb := 0, ast := 0,
    min := m, fg_pct := 0 }

/-- Sixteen games: 5 valid, then 10 garbage-time, then the target row.
The player has exactly 5 valid prior observations at row 15, yet all of
them fall outside the 10-row rolling window. -/
def c8tl : List StatRow :=
  [mkRowA 0 30, mkRowA 1 30, mkRowA 2 30, mkRowA 3 30, mkRowA 4 30,
   mkRowA 5 5, mkRowA 6 5, mkRowA 7 5, mkRowA 8 5, mkRowA 9 5,
   mkRowA 10 5, mkRowA 11 5, mkRowA 12 5, mkRowA 13 5, mkRowA 14 5,
   mkRowA 15 30]

/-- Counterexample to C8 as stated: at row 15 of `c8tl` the player has
exactly 5 valid prior observations, but pts_std_L10 is missing, because
the 10-row window only covers the masked games. -/
theorem std_min_periods_counterexample :
    validPriorCount c8tl 15 = 5 ∧ Features.pts_std_L10 id c8tl 15 = none := by
  constructor
  · decide
  · decide

/-- Five games: 4 valid priors at the last row. -/
def c8tl4 : List StatRow :=
  [mkRowA 0 30, mkRowA 1 30, mkRowA 2 30, mkRowA 3 30, mkRowA 4 30]

/-- Six games: 5 valid rows inside the window before the last row. -/
def c8tl5 : List StatRow :=
  [mkRowA 0 30, mkRowA 1 30, mkRowA 2 30, mkRowA 3 30, mkRowA 4 30,
   mkRowA 5 30]

/-- Witness for the amended C8: with exactly 4 valid priors the standard
deviation is missing; with 5 valid rows inside the window it is defined. -/
theorem std_min_periods_boundary_witness :
    (validPriorCount c8tl4 4 = 4 ∧ Features.pts_std_L10 id c8tl4 4 = none) ∧
    (windowValidCount c8tl5 5 = 5 ∧
      (Features.pts_std_L10 id c8tl5 5).isSome = true) :=
  ⟨⟨by decide, (std_min_periods_boundary id c8tl4 4).1 (by decide)⟩,
   ⟨by decide, (std_min_periods_boundary id c8tl5 5).2 (by decide)⟩⟩

/-- C6: when the requested opponent has zero qualifying games strictly
before the as-of date (the date of the player's most recent surviving
row), `get_model_inputs` fails with the distinguishable
insufficient-opponent-data reason and returns no feature vector — the
defense feature is never defaulted to zero. -/
theorem opponent_without_history_fails (sq : ℚ → ℚ)
    (history : List StatRow) (o : String) (oppRows : List OppRow)
    (ih : Bool) (dr : ℚ) (i : ℕ)
    (hne : history.isEmpty = false)
    (hlast : (Features.survivors sq
      (Pandas.sortBy Pandas.nameDateLe history)).getLast? = some i)
    (hempty : (Features.oppQualifying o oppRows).filter
      (fun r => r.date <
        ((Pandas.sortBy Pandas.nameDateLe history).getD i default).date) = []) :
    Features.get_model_inputs sq history (some o) oppRows ih dr =
      .error "Not enough opponent history to build features." := by
  have hopp : Features.oppPtsAllowed (some o) oppRows
      ((Pandas.sortBy Pandas.nameDateLe history).getD i default).date = none := by
    rw [show Features.oppPtsAllowed (some o) oppRows
          ((Pandas.sortBy Pandas.nameDateLe history).getD i default).date =
        Features.oppPtsAllowedSome o oppRows
          ((Pandas.sortBy Pandas.nameDateLe history).getD i default).date from rfl]
    unfold Features.oppPtsAllowedSome
    by_cases ho : o = ""
    · rw [if_pos ho]
    · rw [if_neg ho]
      cases hq : (Features.oppQualifying o oppRows).isEmpty with
      | true => simp only [hq, if_true]
      | false =>
        simp only [hq, Bool.false_eq_true, if_false, hempty,
          List.isEmpty_nil, if_true]
  unfold Features.get_model_inputs
  rw [hne]
  simp only [Bool.false_eq_true, if_false]
  split
  · next heq =>
    rw [hlast] at heq
    exact Option.noConfusion heq
  · next j heq =>
    rw [hlast] at heq
    injection heq with heq
    subst heq
    split
    · rfl
    · next d hd =>
      rw [hopp] at hd
      exact Option.noConfusion hd

/-- Six-game valid history for the opponent-failure witness. -/
def c6hist : List StatRow :=
  [mkRowA 0 30, mkRowA 1 30, mkRowA 2 30, mkRowA 3 30, mkRowA 4 30,
   mkRowA 5 30]

/-- Witness for C6: a player with six full games and an opponent with no
recorded games at all yields the opponent-insufficiency error. -/
theorem opponent_without_history_fails_witness :
    c6hist.isEmpty = false ∧
    (Features.survivors id
      (Pandas.sortBy Pandas.nameDateLe c6hist)).getLast? = some 5 ∧
    Features.get_model_inputs id c6hist (some "BOS") [] true 2 =
      .error "Not enough opponent history to build features." :=
  ⟨rfl, by decide,
   opponent_without_history_fails id c6hist "BOS" [] true 2 5 rfl
     (by decide) (by decide)⟩

/-- Six-game valid history for the KeyError evaluation. -/
def c9hist : List StatRow :=
  [mkRowA 0 30, mkRowA 1 30, mkRowA 2 30, mkRowA 3 30, mkRowA 4 30,
   mkRowA 5 30]

/-- Two prior games of other teams against the requested opponent, both
strictly before the player's latest game. -/
def c9opp : List OppRow :=
  [{ game_id := 100, date := 0, team := some "LAL", pts := 100 },
   { game_id := 101, date := 1, team := some "LAL", pts := 110 }]

/-- C9 evaluation: `get_model_inputs` can never return a feature vector,
because `latest[feature_columns]` requests the `opp_pts_allowed_L10`
label which the features.py history frame never contains, so pandas
raises a KeyError on every input that reaches the selection; at the
concrete failing input (a six-game valid history and an opponent with two
prior games) the computation reaches exactly that point. -/
theorem get_model_inputs_keyerror :
    (∀ (sq : ℚ → ℚ) (history : List StatRow) (opponent : Option String)
        (oppRows : List OppRow) (ih : Bool) (dr : ℚ)
        (v : Features.FeatureVec),
      Features.get_model_inputs sq history opponent oppRows ih dr ≠ .ok v) ∧
    Features.get_model_inputs id c9hist (some "BOS") c9opp true 2 =
      .error "KeyError: opp_pts_allowed_L10 not in index" := by
  constructor
  · intro sq history opponent oppRows ih dr v h
    have hcols : (Features.feature_columns.all
        (fun c => Features.history_columns.contains c)) = false := by decide
    unfold Features.get_model_inputs at h
    rw [hcols] at h
    cases hne : history.isEmpty with
    | true =>
      rw [hne] at h
      rw [if_pos rfl] at h
      exact Except.noConfusion h
    | false =>
      rw [hne] at h
      simp only [Bool.false_eq_true, if_false] at h
      revert h
      split
      · exact fun h => Except.noConfusion h
      · split
        · exact fun h => Except.noConfusion h
        · exact fun h => Except.noConfusion h
  · rfl
